import Mathlib

/-!
Verification of the LuaCpp embedding layer (script-compilation cache and
execution-context lifecycle).  The repository ships the unit-test file
src/Source/UnitTest/TestLuaContext.cpp; the native callable `foo` below is
translated from that file.  The Context, Registry, LuaState and LuaLibrary
operations exercised by the tests are not part of the sources available here,
so they are modelled from the specification (each such definition carries a
doc comment starting with "Modelled from the spec:").
-/

namespace LuaCpp

/-- Association-list lookup keyed by decidable equality; the first binding of
the key wins.  Used for the Registry, the modelled file system, the engine
state table and the function table of a library. -/
def lookupKey {κ α : Type} [DecidableEq κ] (l : List (κ × α)) (k : κ) : Option α :=
  match l with
  | [] => none
  | p :: rest => if p.1 = k then some p.2 else lookupKey rest k

/-- Insert-or-replace for association lists: an existing binding of the key is
replaced in place, otherwise the new binding is appended. -/
def upsert {κ α : Type} [DecidableEq κ] (l : List (κ × α)) (k : κ) (v : α) : List (κ × α) :=
  match l with
  | [] => [(k, v)]
  | p :: rest => if p.1 = k then (k, v) :: rest else p :: upsert rest k v

/-- Lua values relevant to the observable behaviour of this layer: nil,
numbers (lua_Number, modelled as rationals) and strings. -/
inductive LuaValue where
  | nil : LuaValue
  | num : ℚ → LuaValue
  | str : String → LuaValue
deriving DecidableEq

/-- Modelled from the engine API as used by `foo`: `lua_tonumber` coerces a
stack value to a number, and a value that is not a number contributes 0. -/
def lua_tonumber : LuaValue → ℚ
  | LuaValue.num q => q
  | _ => 0

/-- A native callable following the engine's native-call convention: it
receives the arguments placed on the stack and returns the result values it
pushes together with the result count it reports to the engine. -/
abbrev CFunction := List LuaValue → List LuaValue × Nat

/-- The native averaging callable `foo`, translated from
src/Source/UnitTest/TestLuaContext.cpp (lines 33-49).  `n` is the number of
arguments (`lua_gettop`), `sum` accumulates `lua_tonumber` over every argument
(the argument type check in the source is commented out), and the function
pushes first `sum/n` and then `sum`, returning the result count 2. -/
def foo (args : List LuaValue) : List LuaValue × Nat :=
  let n := args.length
  let sum : ℚ := (args.map lua_tonumber).sum
  ([LuaValue.num (sum / (n : ℚ)), LuaValue.num sum], 2)

/-- Modelled from the spec: the heap of live engine states.  Each handle is a
`lua_State` of the embedded engine, carrying its value stack; `next` is the
next unused handle. -/
structure EngineWorld where
  next : Nat
  states : List (Nat × List LuaValue)
deriving DecidableEq

/-- Modelled from the spec: an Interpreter Instance is a handle to one engine
state plus an ownership flag (owning instances tear the state down on
destruction, borrowing instances never touch it). -/
structure LuaState where
  handle : Nat
  owning : Bool
deriving DecidableEq

/-- The value stack of a handle in the engine heap (empty if the handle is
not live). -/
def EngineWorld.stackOf (w : EngineWorld) (h : Nat) : List LuaValue :=
  (lookupKey w.states h).getD []

/-- Modelled from the engine API: `lua_gettop` reports the depth of the value
stack of the instance's engine state. -/
def lua_gettop (w : EngineWorld) (st : LuaState) : Nat :=
  (w.stackOf st.handle).length

/-- Modelled from the engine API: `lua_pushstring` pushes one string value on
the instance's stack. -/
def lua_pushstring (w : EngineWorld) (st : LuaState) (s : String) : EngineWorld :=
  ⟨w.next, w.states.map (fun p => if p.1 = st.handle then (p.1, LuaValue.str s :: p.2) else p)⟩

/-- Modelled from the spec: `create()` returns a new owning instance with a
fresh, empty engine state; it never fails. -/
def LuaState.create (w : EngineWorld) : LuaState × EngineWorld :=
  (⟨w.next, true⟩, ⟨w.next + 1, (w.next, []) :: w.states⟩)

/-- Modelled from the spec: `createReusing(source, reuse)` wraps the source
instance's engine state without taking ownership when `reuse` is true (the
constructor `LuaState(lua_State *, bool)` of the test file). -/
def LuaState.createReusing (src : LuaState) (reuse : Bool) : LuaState :=
  ⟨src.handle, !reuse⟩

/-- Modelled from the spec: the destructor.  An owning instance tears down its
engine state; destroying a borrowing instance is a no-op with respect to the
shared state. -/
def LuaState.destroy (w : EngineWorld) (st : LuaState) : EngineWorld :=
  if st.owning then ⟨w.next, w.states.filter (fun p => p.1 ≠ st.handle)⟩ else w

/-- Modelled from the spec: the script sources the tests feed to the layer,
abstracted to their observable shape.  `printStr s` prints the literal `s`;
`callUndefined sym` calls a script-level symbol `sym` that is not defined in
the instance; `printConcatCall pre lib fn args` prints the literal `pre`
concatenated with the first result of calling `lib.fn(args)`; `malformed src`
is a source text that fails to parse. -/
inductive Chunk where
  | printStr : String → Chunk
  | callUndefined : String → Chunk
  | printConcatCall : String → String → String → List ℚ → Chunk
  | malformed : String → Chunk
deriving DecidableEq

/-- Modelled from the spec: the engine's diagnostic message for a source that
fails to parse. -/
def luaCompileDiagnostic (src : String) : String :=
  "syntax error near " ++ src

/-- Modelled from the spec: the engine's runtime message for a call to an
undefined script-level symbol. -/
def luaUndefinedMsg (sym : String) : String :=
  "attempt to call a nil value (global " ++ sym ++ ")"

/-- Modelled from the spec: the engine's runtime message for indexing a global
table that does not exist. -/
def luaNilIndexMsg (g : String) : String :=
  "attempt to index a nil value (global " ++ g ++ ")"

/-- Modelled from the spec: parsing/compiling one source in an instance.  A
malformed source yields the engine's diagnostic; every other source compiles
to itself (the Compiled Artifact is opaque to the Context). -/
def luaL_loadstring : Chunk → Except String Chunk
  | Chunk.malformed src => Except.error (luaCompileDiagnostic src)
  | c => Except.ok c

/-- One observable output event: a line printed to standard output, kept as
the list of concatenated parts (string-formatting of numbers is the engine's
concern and is not modelled). -/
inductive Obs where
  | line : List LuaValue → Obs
deriving DecidableEq

/-- Modelled from the spec: a Native Library Descriptor, a named collection of
host-implemented functions to be exposed as a script-visible namespace. -/
structure LuaLibrary where
  name : String
  functions : List (String × CFunction)

/-- Modelled from the spec: `AddCFunction` registers a callable by name,
silently overwriting an existing entry of the same name (last write wins). -/
def LuaLibrary.AddCFunction (lib : LuaLibrary) (fname : String) (f : CFunction) : LuaLibrary :=
  { lib with functions := upsert lib.functions fname f }

/-- Modelled from the spec: `setName` renames the descriptor; it affects the
namespace used by subsequent binds only. -/
def LuaLibrary.setName (lib : LuaLibrary) (newName : String) : LuaLibrary :=
  { lib with name := newName }

/-- Resolution of a global library table in an instance into which the given
libraries were bound in order: a later bind overwrites an earlier global of
the same name, so the last matching descriptor wins. -/
def lookupLib (libs : List LuaLibrary) (n : String) : Option LuaLibrary :=
  match libs with
  | [] => none
  | l :: rest =>
    match lookupLib rest n with
    | some r => some r
    | none => if l.name = n then some l else none

/-- Modelled from the spec: executing a compiled chunk in an instance whose
bound libraries are `libs`.  The result is either the engine's runtime error
message or the list of printed lines.  A function call in the middle of an
expression is adjusted to its first result, per the engine's convention. -/
def lua_pcall (libs : List LuaLibrary) : Chunk → Except String (List Obs)
  | Chunk.printStr s => Except.ok [Obs.line [LuaValue.str s]]
  | Chunk.callUndefined sym => Except.error (luaUndefinedMsg sym)
  | Chunk.printConcatCall pre lib fn args =>
    match lookupLib libs lib with
    | none => Except.error (luaNilIndexMsg lib)
    | some l =>
      match lookupKey l.functions fn with
      | none => Except.error (luaUndefinedMsg (lib ++ "." ++ fn))
      | some f =>
        Except.ok [Obs.line [LuaValue.str pre, ((f (args.map LuaValue.num)).1.head?.getD LuaValue.nil)]]
  | Chunk.malformed src => Except.error (luaCompileDiagnostic src)

/-- Modelled from the spec: the four error conditions of the layer. -/
inductive LuaErr where
  | compileError : String → LuaErr
  | notFound : String → LuaErr
  | scriptRuntimeError : String → LuaErr
  | ioError : String → LuaErr
deriving DecidableEq

/-- Modelled from the spec: how each structured error is surfaced to the
host: a CompileError maps to a logic error, NotFoundError and
ScriptRuntimeError map to runtime errors, and a file-read failure is a
distinct I/O failure. -/
inductive HostError where
  | logicError : String → HostError
  | runtimeError : String → HostError
  | ioFailure : String → HostError
deriving DecidableEq

/-- Modelled from the spec: the message carried by a NotFoundError. -/
def notFoundMsg (n : String) : String :=
  "the name " ++ n ++ " does not exist in the registry"

/-- Modelled from the spec: the mapping of layer errors onto host exception
categories. -/
def LuaErr.toHost : LuaErr → HostError
  | LuaErr.compileError m => HostError.logicError m
  | LuaErr.notFound n => HostError.runtimeError (notFoundMsg n)
  | LuaErr.scriptRuntimeError m => HostError.runtimeError m
  | LuaErr.ioError p => HostError.ioFailure p

/-- Modelled from the spec: a Compiled Artifact, the compiled chunk together
with the libraries that were bound into its owning Interpreter Instance at
the moment it was compiled. -/
structure CompiledArtifact where
  chunk : Chunk
  boundLibs : List LuaLibrary

/-- Modelled from the spec: the Context façade, owning the Compilation
Registry (logical name to Compiled Artifact) and the registered Native
Library Descriptors. -/
structure LuaContext where
  registry : List (String × CompiledArtifact)
  libraries : List LuaLibrary

/-- Modelled from the spec: a freshly constructed Context has an empty
Registry and no libraries. -/
def LuaContext.new : LuaContext := ⟨[], []⟩

/-- Modelled from the spec: `AddLibrary` transfers the descriptor to the
Context; libraries accumulate and are bound, in order, into every instance
created for a subsequent compilation. -/
def LuaContext.AddLibrary (ctx : LuaContext) (lib : LuaLibrary) : LuaContext :=
  { ctx with libraries := ctx.libraries ++ [lib] }

/-- Modelled from the spec: `newState()` is a pure factory returning a fresh
owning instance with no libraries and no compiled code. -/
def LuaContext.newState (_ctx : LuaContext) (w : EngineWorld) : LuaState × EngineWorld :=
  LuaState.create w

/-- Modelled from the spec: the compile step shared by `CompileString` and
`CompileFile` once the source text is in hand — create a fresh instance, bind
all registered libraries into it, compile the source; on a compile error,
signal CompileError and leave the Registry untouched; on success, store the
Artifact under the name (replacing an existing binding). -/
def LuaContext.compileStore (ctx : LuaContext) (n : String) (code : Chunk) :
    LuaContext × Except LuaErr Unit :=
  match luaL_loadstring code with
  | Except.error m => (ctx, Except.error (LuaErr.compileError m))
  | Except.ok c =>
    ({ ctx with registry := upsert ctx.registry n ⟨c, ctx.libraries⟩ }, Except.ok ())

/-- Modelled from the spec: `CompileString(name, source, force)`.  If the name
is already registered and `force` is false, the call is a silent no-op; the
new source is discarded and the existing Artifact retained.  Otherwise the
source is compiled and stored. -/
def LuaContext.CompileString (ctx : LuaContext) (n : String) (code : Chunk) (force : Bool) :
    LuaContext × Except LuaErr Unit :=
  if (lookupKey ctx.registry n).isSome && !force then (ctx, Except.ok ())
  else ctx.compileStore n code

/-- Modelled from the spec: `CompileFile(name, path, force)` — the same
contract as `CompileString`, sourcing the text from the file system `fs`; a
missing path is an I/O error distinct from a compile error. -/
def LuaContext.CompileFile (ctx : LuaContext) (fs : List (String × Chunk)) (n path : String)
    (force : Bool) : LuaContext × Except LuaErr Unit :=
  if (lookupKey ctx.registry n).isSome && !force then (ctx, Except.ok ())
  else
    match lookupKey fs path with
    | none => (ctx, Except.error (LuaErr.ioError path))
    | some code => ctx.compileStore n code

/-- Modelled from the spec: `newStateFor(name)` returns the Artifact (with the
Interpreter Instance that owns it) registered under the name, or fails with
NotFoundError when the name is absent; it never mutates the Context. -/
def LuaContext.newStateFor (ctx : LuaContext) (n : String) : Except LuaErr CompiledArtifact :=
  match lookupKey ctx.registry n with
  | none => Except.error (LuaErr.notFound n)
  | some a => Except.ok a

/-- Executing one compiled chunk against the libraries bound into its
instance, wrapping an engine runtime fault as ScriptRuntimeError. -/
def runResult (libs : List LuaLibrary) (c : Chunk) : Except LuaErr (List Obs) :=
  match lua_pcall libs c with
  | Except.error m => Except.error (LuaErr.scriptRuntimeError m)
  | Except.ok out => Except.ok out

/-- Modelled from the spec: `Run(name)` executes the Artifact registered under
the name inside its owning instance; it fails with NotFoundError when the
name is absent and with ScriptRuntimeError on an engine runtime fault; it
never mutates the Registry. -/
def LuaContext.Run (ctx : LuaContext) (n : String) : Except LuaErr (List Obs) :=
  match lookupKey ctx.registry n with
  | none => Except.error (LuaErr.notFound n)
  | some a => runResult a.boundLibs a.chunk

/-- Modelled from the spec: `CompileStringAndRun` compiles anonymously and
immediately executes; a compile error short-circuits before any run
attempt. -/
def LuaContext.CompileStringAndRun (ctx : LuaContext) (code : Chunk) :
    Except LuaErr (List Obs) :=
  match luaL_loadstring code with
  | Except.error m => Except.error (LuaErr.compileError m)
  | Except.ok c => runResult ctx.libraries c

/-- Modelled from the spec: `CompileFileAndRun` reads the source from the file
system, then behaves as `CompileStringAndRun`; a missing path is an I/O
error. -/
def LuaContext.CompileFileAndRun (ctx : LuaContext) (fs : List (String × Chunk))
    (path : String) : Except LuaErr (List Obs) :=
  match lookupKey fs path with
  | none => Except.error (LuaErr.ioError path)
  | some code => ctx.CompileStringAndRun code

/-- Test fixture: the modelled file system written by the test's SetUp,
mapping each script path to its source. -/
def testFs : List (String × Chunk) :=
  [("TestLuaContext_1_ok.lua", Chunk.printStr "Hello World from Lua"),
   ("TestLuaContext_2_nok.lua", Chunk.callUndefined "print_not_exists"),
   ("TestLuaContext_3_v1.lua", Chunk.printStr "Hello World from Lua, v1.0"),
   ("TestLuaContext_3_v2.lua", Chunk.printStr "Hello World from Lua, v2.0"),
   ("TestLuaContext_3_v3.lua", Chunk.printStr "Hello World from Lua, v3.0")]

instance exceptDecEq {ε α : Type} [DecidableEq ε] [DecidableEq α] : DecidableEq (Except ε α) :=
  fun x y =>
  match x, y with
  | Except.error a, Except.error b =>
    if h : a = b then isTrue (by rw [h]) else isFalse (fun hc => h (Except.error.inj hc))
  | Except.error _, Except.ok _ => isFalse (fun hc => Except.noConfusion hc)
  | Except.ok _, Except.error _ => isFalse (fun hc => Except.noConfusion hc)
  | Except.ok a, Except.ok b =>
    if h : a = b then isTrue (by rw [h]) else isFalse (fun hc => h (Except.ok.inj hc))

theorem lookupKey_upsert_self {κ α : Type} [DecidableEq κ] (l : List (κ × α)) (k : κ) (v : α) :
    lookupKey (upsert l k v) k = some v := by
  induction l with
  | nil => simp [upsert, lookupKey]
  | cons p rest ih =>
    by_cases h : p.1 = k
    · simp [upsert, h, lookupKey]
    · simp [upsert, h, lookupKey, ih]

theorem lookupLib_append_singleton (libs : List LuaLibrary) (l : LuaLibrary) (n : String)
    (h : l.name = n) : lookupLib (libs ++ [l]) n = some l := by
  induction libs with
  | nil => simp [lookupLib, h]
  | cons x xs ih => simp [lookupLib, ih]

theorem compileStore_ok (ctx : LuaContext) (n : String) (c : Chunk)
    (h : luaL_loadstring c = Except.ok c) :
    ctx.compileStore n c =
      (LuaContext.mk (upsert ctx.registry n ⟨c, ctx.libraries⟩) ctx.libraries, Except.ok ()) := by
  simp [LuaContext.compileStore, h]

theorem CompileString_fresh (ctx : LuaContext) (n : String) (c : Chunk) (force : Bool)
    (h : lookupKey ctx.registry n = none) :
    ctx.CompileString n c force = ctx.compileStore n c := by
  simp [LuaContext.CompileString, h]

theorem CompileString_noop (ctx : LuaContext) (n : String) (c : Chunk)
    (h : (lookupKey ctx.registry n).isSome = true) :
    ctx.CompileString n c false = (ctx, Except.ok ()) := by
  simp [LuaContext.CompileString, h]

theorem CompileString_force (ctx : LuaContext) (n : String) (c : Chunk) :
    ctx.CompileString n c true = ctx.compileStore n c := by
  simp [LuaContext.CompileString]

theorem CompileString_libraries (ctx : LuaContext) (n : String) (c : Chunk) (force : Bool) :
    (ctx.CompileString n c force).1.libraries = ctx.libraries := by
  unfold LuaContext.CompileString LuaContext.compileStore
  split
  · rfl
  · split <;> rfl

theorem CompileFile_fresh_found (ctx : LuaContext) (fs : List (String × Chunk)) (n p : String)
    (force : Bool) (c : Chunk) (hfresh : lookupKey ctx.registry n = none)
    (hp : lookupKey fs p = some c) :
    ctx.CompileFile fs n p force = ctx.compileStore n c := by
  simp [LuaContext.CompileFile, hfresh, hp]

theorem CompileFile_force_found (ctx : LuaContext) (fs : List (String × Chunk)) (n p : String)
    (c : Chunk) (hp : lookupKey fs p = some c) :
    ctx.CompileFile fs n p true = ctx.compileStore n c := by
  simp [LuaContext.CompileFile, hp]

theorem CompileFile_noop (ctx : LuaContext) (fs : List (String × Chunk)) (n p : String)
    (h : (lookupKey ctx.registry n).isSome = true) :
    ctx.CompileFile fs n p false = (ctx, Except.ok ()) := by
  simp [LuaContext.CompileFile, h]

theorem CompileFile_libraries (ctx : LuaContext) (fs : List (String × Chunk)) (n p : String)
    (force : Bool) : (ctx.CompileFile fs n p force).1.libraries = ctx.libraries := by
  unfold LuaContext.CompileFile LuaContext.compileStore
  split
  · rfl
  · split
    · rfl
    · split <;> rfl

theorem Run_lookup (ctx : LuaContext) (n : String) (a : CompiledArtifact)
    (h : lookupKey ctx.registry n = some a) :
    ctx.Run n = runResult a.boundLibs a.chunk := by
  simp [LuaContext.Run, h]

/-- C1: first-wins law.  For a logical name `n` not yet registered and sources
`s1 ≠ s2`, after `CompileString(n, s1)` succeeds, a subsequent
`CompileString(n, s2)` without force succeeds as a no-op (the Context and the
registered Artifact are unchanged), and `Run(n)` afterwards produces the
observable output of `s1`, never of `s2`; the same holds for `CompileFile`
with paths `p1`, `p2` holding `s1`, `s2`. -/
theorem first_wins_law
    (ctx : LuaContext) (n : String) (s1 s2 : Chunk)
    (fs : List (String × Chunk)) (p1 p2 : String)
    (hne : s1 ≠ s2)
    (hok : luaL_loadstring s1 = Except.ok s1)
    (hfresh : lookupKey ctx.registry n = none)
    (hp1 : lookupKey fs p1 = some s1)
    (hp2 : lookupKey fs p2 = some s2) :
    (ctx.CompileString n s1 false).2 = Except.ok () ∧
    ((ctx.CompileString n s1 false).1.CompileString n s2 false).2 = Except.ok () ∧
    ((ctx.CompileString n s1 false).1.CompileString n s2 false).1 = (ctx.CompileString n s1 false).1 ∧
    lookupKey ((ctx.CompileString n s1 false).1.CompileString n s2 false).1.registry n
      = some ⟨s1, ctx.libraries⟩ ∧
    ((ctx.CompileString n s1 false).1.CompileString n s2 false).1.Run n
      = runResult ctx.libraries s1 ∧
    (runResult ctx.libraries s1 ≠ runResult ctx.libraries s2 →
      ((ctx.CompileString n s1 false).1.CompileString n s2 false).1.Run n
        ≠ runResult ctx.libraries s2) ∧
    (ctx.CompileFile fs n p1 false).2 = Except.ok () ∧
    ((ctx.CompileFile fs n p1 false).1.CompileFile fs n p2 false).2 = Except.ok () ∧
    ((ctx.CompileFile fs n p1 false).1.CompileFile fs n p2 false).1.Run n
      = runResult ctx.libraries s1 := by
  have h1 : ctx.CompileString n s1 false =
      (LuaContext.mk (upsert ctx.registry n ⟨s1, ctx.libraries⟩) ctx.libraries, Except.ok ()) := by
    rw [CompileString_fresh ctx n s1 false hfresh, compileStore_ok ctx n s1 hok]
  have hreg : lookupKey (upsert ctx.registry n ⟨s1, ctx.libraries⟩) n = some ⟨s1, ctx.libraries⟩ :=
    lookupKey_upsert_self _ _ _
  have h2 : (LuaContext.mk (upsert ctx.registry n ⟨s1, ctx.libraries⟩) ctx.libraries).CompileString n s2 false
      = (LuaContext.mk (upsert ctx.registry n ⟨s1, ctx.libraries⟩) ctx.libraries, Except.ok ()) :=
    CompileString_noop _ n s2 (by simp [hreg])
  have h3 : (LuaContext.mk (upsert ctx.registry n ⟨s1, ctx.libraries⟩) ctx.libraries).Run n
      = runResult ctx.libraries s1 :=
    Run_lookup _ n ⟨s1, ctx.libraries⟩ (by simpa using hreg)
  have hf1 : ctx.CompileFile fs n p1 false =
      (LuaContext.mk (upsert ctx.registry n ⟨s1, ctx.libraries⟩) ctx.libraries, Except.ok ()) := by
    rw [CompileFile_fresh_found ctx fs n p1 false s1 hfresh hp1, compileStore_ok ctx n s1 hok]
  have hf2 : (LuaContext.mk (upsert ctx.registry n ⟨s1, ctx.libraries⟩) ctx.libraries).CompileFile fs n p2 false
      = (LuaContext.mk (upsert ctx.registry n ⟨s1, ctx.libraries⟩) ctx.libraries, Except.ok ()) :=
    CompileFile_noop _ fs n p2 (by simp [hreg])
  refine ⟨?_, ?_, ?_, ?_, ?_, ?_, ?_, ?_, ?_⟩
  · simp [h1]
  · simp [h1, h2]
  · simp [h1, h2]
  · simp [h1, h2, hreg]
  · simp [h1, h2, h3]
  · intro hd
    simp only [h1, h2, h3]
    exact hd
  · simp [hf1]
  · simp [hf1, hf2]
  · simp [hf1, hf2, h3]

/-- Witness for the first-wins law at the inputs of the unit tests: on a
fresh Context, compiling v1.0 then v2.0 under "test" and running "test"
yields the execution of v1.0. -/
theorem first_wins_law_witness :
    Chunk.printStr "Hello World from Lua, v1.0" ≠ Chunk.printStr "Hello World from Lua, v2.0" ∧
    lookupKey LuaContext.new.registry "test" = none ∧
    ((LuaContext.new.CompileString "test" (Chunk.printStr "Hello World from Lua, v1.0") false).1.CompileString
        "test" (Chunk.printStr "Hello World from Lua, v2.0") false).1.Run "test"
      = runResult LuaContext.new.libraries (Chunk.printStr "Hello World from Lua, v1.0") :=
  ⟨by decide, rfl,
    (first_wins_law LuaContext.new "test" (Chunk.printStr "Hello World from Lua, v1.0")
      (Chunk.printStr "Hello World from Lua, v2.0") testFs "TestLuaContext_3_v1.lua"
      "TestLuaContext_3_v2.lua" (by decide) rfl rfl (by decide) (by decide)).2.2.2.2.1⟩

/-- C2: forced-overwrite law.  After `CompileString(n, s1)` succeeds, a
subsequent `CompileString(n, s2, force := true)` succeeds, replaces the
Registry entry under `n` with the Artifact of `s2`, and `Run(n)` afterwards
produces the observable output of `s2`, never of `s1`; the same holds for
`CompileFile`. -/
theorem forced_overwrite_law
    (ctx : LuaContext) (n : String) (s1 s2 : Chunk)
    (fs : List (String × Chunk)) (p1 p2 : String)
    (hne : s1 ≠ s2)
    (hok1 : luaL_loadstring s1 = Except.ok s1)
    (hok2 : luaL_loadstring s2 = Except.ok s2)
    (hp1 : lookupKey fs p1 = some s1)
    (hp2 : lookupKey fs p2 = some s2) :
    (ctx.CompileString n s1 false).2 = Except.ok () ∧
    ((ctx.CompileString n s1 false).1.CompileString n s2 true).2 = Except.ok () ∧
    lookupKey ((ctx.CompileString n s1 false).1.CompileString n s2 true).1.registry n
      = some ⟨s2, ctx.libraries⟩ ∧
    ((ctx.CompileString n s1 false).1.CompileString n s2 true).1.Run n
      = runResult ctx.libraries s2 ∧
    (runResult ctx.libraries s1 ≠ runResult ctx.libraries s2 →
      ((ctx.CompileString n s1 false).1.CompileString n s2 true).1.Run n
        ≠ runResult ctx.libraries s1) ∧
    ((ctx.CompileFile fs n p1 false).1.CompileFile fs n p2 true).2 = Except.ok () ∧
    ((ctx.CompileFile fs n p1 false).1.CompileFile fs n p2 true).1.Run n
      = runResult ctx.libraries s2 := by
  have hmidlib : (ctx.CompileString n s1 false).1.libraries = ctx.libraries :=
    CompileString_libraries ctx n s1 false
  have hmidlibf : (ctx.CompileFile fs n p1 false).1.libraries = ctx.libraries :=
    CompileFile_libraries ctx fs n p1 false
  have h2 : (ctx.CompileString n s1 false).1.CompileString n s2 true =
      (LuaContext.mk (upsert (ctx.CompileString n s1 false).1.registry n ⟨s2, ctx.libraries⟩)
        ctx.libraries, Except.ok ()) := by
    rw [CompileString_force _ n s2, compileStore_ok _ n s2 hok2, hmidlib]
  have hreg : lookupKey (upsert (ctx.CompileString n s1 false).1.registry n ⟨s2, ctx.libraries⟩) n
      = some ⟨s2, ctx.libraries⟩ := lookupKey_upsert_self _ _ _
  have h3 : (LuaContext.mk (upsert (ctx.CompileString n s1 false).1.registry n ⟨s2, ctx.libraries⟩)
      ctx.libraries).Run n = runResult ctx.libraries s2 :=
    Run_lookup _ n ⟨s2, ctx.libraries⟩ (by simpa using hreg)
  have hf2 : (ctx.CompileFile fs n p1 false).1.CompileFile fs n p2 true =
      (LuaContext.mk (upsert (ctx.CompileFile fs n p1 false).1.registry n ⟨s2, ctx.libraries⟩)
        ctx.libraries, Except.ok ()) := by
    rw [CompileFile_force_found _ fs n p2 s2 hp2, compileStore_ok _ n s2 hok2, hmidlibf]
  have hregf : lookupKey (upsert (ctx.CompileFile fs n p1 false).1.registry n ⟨s2, ctx.libraries⟩) n
      = some ⟨s2, ctx.libraries⟩ := lookupKey_upsert_self _ _ _
  have hf3 : (LuaContext.mk (upsert (ctx.CompileFile fs n p1 false).1.registry n ⟨s2, ctx.libraries⟩)
      ctx.libraries).Run n = runResult ctx.libraries s2 :=
    Run_lookup _ n ⟨s2, ctx.libraries⟩ (by simpa using hregf)
  refine ⟨?_, ?_, ?_, ?_, ?_, ?_, ?_⟩
  · unfold LuaContext.CompileString LuaContext.compileStore
    split
    · rfl
    · rw [hok1]
  · simp [h2]
  · simp [h2, hreg]
  · simp [h2, h3]
  · intro hd
    simp only [h2, h3]
    exact fun hc => hd hc.symm
  · simp [hf2]
  · simp [hf2, hf3]

/-- Witness for the forced-overwrite law at the inputs of the unit tests:
compiling v1.0 then, with force, v3.0 under "test" and running "test" yields
the execution of v3.0. -/
theorem forced_overwrite_law_witness :
    Chunk.printStr "Hello World from Lua, v1.0" ≠ Chunk.printStr "Hello World from Lua, v3.0" ∧
    ((LuaContext.new.CompileString "test" (Chunk.printStr "Hello World from Lua, v1.0") false).1.CompileString
        "test" (Chunk.printStr "Hello World from Lua, v3.0") true).1.Run "test"
      = runResult LuaContext.new.libraries (Chunk.printStr "Hello World from Lua, v3.0") :=
  ⟨by decide,
    (forced_overwrite_law LuaContext.new "test" (Chunk.printStr "Hello World from Lua, v1.0")
      (Chunk.printStr "Hello World from Lua, v3.0") testFs "TestLuaContext_3_v1.lua"
      "TestLuaContext_3_v3.lua" (by decide) rfl rfl (by decide) (by decide)).2.2.2.1⟩

/-- Counterexample to C3 as stated: compiling a syntactically invalid source
under a name that is already registered, without force, does NOT signal a
CompileError — the invalid source is silently discarded as a no-op, because
the Registry presence check precedes compilation. -/
theorem malformed_source_noop_counterexample :
    ((LuaContext.new.CompileString "test" (Chunk.printStr "Hello World from Lua, v1.0") false).1.CompileString
        "test" (Chunk.malformed "while \x7b\x7d[1]") false).2 = Except.ok () ∧
    ((LuaContext.new.CompileString "test" (Chunk.printStr "Hello World from Lua, v1.0") false).1.CompileString
        "test" (Chunk.malformed "while \x7b\x7d[1]") false).2
      ≠ Except.error (LuaErr.compileError (luaCompileDiagnostic "while \x7b\x7d[1]")) := by
  constructor
  · decide
  · decide

/-- C3 (amended): compile-error atomicity.  For every syntactically invalid
source compiled under a name that is not already registered (or with force),
CompileString signals a CompileError carrying the engine diagnostic, surfaced
to the host as a logic error, and the Context is left exactly as it was; in
particular a name never previously compiled successfully still fails
newStateFor with NotFoundError.  (When the name is already registered and
force is false, the invalid source is instead discarded silently as a
no-op.) -/
theorem malformed_source_atomicity
    (ctx : LuaContext) (n src : String) (force : Bool)
    (h : lookupKey ctx.registry n = none ∨ force = true) :
    (ctx.CompileString n (Chunk.malformed src) force).1 = ctx ∧
    (ctx.CompileString n (Chunk.malformed src) force).2
      = Except.error (LuaErr.compileError (luaCompileDiagnostic src)) ∧
    (LuaErr.compileError (luaCompileDiagnostic src)).toHost
      = HostError.logicError (luaCompileDiagnostic src) ∧
    (lookupKey ctx.registry n = none → ctx.newStateFor n = Except.error (LuaErr.notFound n)) := by
  have hstep : ctx.CompileString n (Chunk.malformed src) force = ctx.compileStore n (Chunk.malformed src) := by
    rcases h with h | h
    · exact CompileString_fresh ctx n _ force h
    · rw [h]; exact CompileString_force ctx n _
  have hbad : ctx.compileStore n (Chunk.malformed src)
      = (ctx, Except.error (LuaErr.compileError (luaCompileDiagnostic src))) := by
    simp [LuaContext.compileStore, luaL_loadstring]
  refine ⟨by rw [hstep, hbad], by rw [hstep, hbad], rfl, ?_⟩
  intro hn
  simp [LuaContext.newStateFor, hn]

/-- Witness for the amended C3 at the unit test input: a fresh Context,
the name "test" and the invalid source of TestLuaContext.CompileError. -/
theorem malformed_source_atomicity_witness :
    (lookupKey LuaContext.new.registry "test" = none ∨ false = true) ∧
    (LuaContext.new.CompileString "test" (Chunk.malformed "while \x7b\x7d[1]") false).2
      = Except.error (LuaErr.compileError (luaCompileDiagnostic "while \x7b\x7d[1]")) :=
  ⟨Or.inl rfl,
    (malformed_source_atomicity LuaContext.new "test" "while \x7b\x7d[1]" false (Or.inl rfl)).2.1⟩

/-- C4: for every logical name absent from the Registry — in particular every
name on a freshly constructed Context — both newStateFor and Run fail with a
NotFoundError, which the host sees as a runtime error, and neither operation
has any effect on the Context (both are pure observers of the Registry). -/
theorem notFound_on_absent_name
    (ctx : LuaContext) (n : String)
    (h : lookupKey ctx.registry n = none) :
    ctx.newStateFor n = Except.error (LuaErr.notFound n) ∧
    ctx.Run n = Except.error (LuaErr.notFound n) ∧
    (LuaErr.notFound n).toHost = HostError.runtimeError (notFoundMsg n) ∧
    lookupKey LuaContext.new.registry n = none := by
  refine ⟨?_, ?_, rfl, rfl⟩
  · simp [LuaContext.newStateFor, h]
  · simp [LuaContext.Run, h]

/-- Witness for C4 at the end-to-end input: a fresh Context and the name
"missing". -/
theorem notFound_on_absent_name_witness :
    lookupKey LuaContext.new.registry "missing" = none ∧
    LuaContext.new.newStateFor "missing" = Except.error (LuaErr.notFound "missing") ∧
    LuaContext.new.Run "missing" = Except.error (LuaErr.notFound "missing") :=
  ⟨rfl, (notFound_on_absent_name LuaContext.new "missing" rfl).1,
    (notFound_on_absent_name LuaContext.new "missing" rfl).2.1⟩

/-- C5: running a compiled script that calls an undefined script-level symbol
raises ScriptRuntimeError carrying the engine message, surfaced to the host
as a runtime error; this holds for CompileStringAndRun and, through a file
whose content is such a script, for CompileFileAndRun; and a compile error
short-circuits CompileStringAndRun before any run attempt. -/
theorem runtime_error_undefined_symbol
    (ctx : LuaContext) (sym src path : String) (fs : List (String × Chunk))
    (hp : lookupKey fs path = some (Chunk.callUndefined sym)) :
    ctx.CompileStringAndRun (Chunk.callUndefined sym)
      = Except.error (LuaErr.scriptRuntimeError (luaUndefinedMsg sym)) ∧
    ctx.CompileFileAndRun fs path
      = Except.error (LuaErr.scriptRuntimeError (luaUndefinedMsg sym)) ∧
    (LuaErr.scriptRuntimeError (luaUndefinedMsg sym)).toHost
      = HostError.runtimeError (luaUndefinedMsg sym) ∧
    ctx.CompileStringAndRun (Chunk.malformed src)
      = Except.error (LuaErr.compileError (luaCompileDiagnostic src)) := by
  refine ⟨?_, ?_, rfl, ?_⟩
  · simp [LuaContext.CompileStringAndRun, luaL_loadstring, runResult, lua_pcall]
  · simp [LuaContext.CompileFileAndRun, hp, LuaContext.CompileStringAndRun, luaL_loadstring,
      runResult, lua_pcall]
  · simp [LuaContext.CompileStringAndRun, luaL_loadstring]

/-- Witness for C5 at the unit test inputs: the scripts of
RuntimeErrorFromLuaString and RuntimeErrorFromLuaFile on a fresh Context. -/
theorem runtime_error_undefined_symbol_witness :
    lookupKey testFs "TestLuaContext_2_nok.lua" = some (Chunk.callUndefined "print_not_exists") ∧
    LuaContext.new.CompileStringAndRun (Chunk.callUndefined "print_not_found")
      = Except.error (LuaErr.scriptRuntimeError (luaUndefinedMsg "print_not_found")) ∧
    LuaContext.new.CompileFileAndRun testFs "TestLuaContext_2_nok.lua"
      = Except.error (LuaErr.scriptRuntimeError (luaUndefinedMsg "print_not_exists")) :=
  ⟨by decide,
    (runtime_error_undefined_symbol LuaContext.new "print_not_found" "x" "p" [("p", Chunk.callUndefined "print_not_found")] (by decide)).1,
    (runtime_error_undefined_symbol LuaContext.new "print_not_exists" "x" "TestLuaContext_2_nok.lua" testFs (by decide)).2.1⟩

/-- C6: `newState()` always succeeds: for every Context and every engine
heap it returns an owning Interpreter Instance whose engine stack is empty
(depth 0), and pushing exactly one value onto that stack makes its depth
exactly 1. -/
theorem newState_empty_push_one (ctx : LuaContext) (w : EngineWorld) :
    ((ctx.newState w).1).owning = true ∧
    lua_gettop (ctx.newState w).2 (ctx.newState w).1 = 0 ∧
    lua_gettop (lua_pushstring (ctx.newState w).2 (ctx.newState w).1 "test") (ctx.newState w).1 = 1 := by
  refine ⟨rfl, ?_, ?_⟩
  · simp [LuaContext.newState, LuaState.create, lua_gettop, EngineWorld.stackOf, lookupKey]
  · simp [LuaContext.newState, LuaState.create, lua_gettop, lua_pushstring,
      EngineWorld.stackOf, lookupKey]

/-- C7: a borrowing instance constructed with reuse from a source instance of
stack depth `d` initially reports depth `d`; it is non-owning, destroying it
leaves the engine heap (and so the source instance's state and stack depth)
completely unchanged, and the source's engine state stays valid. -/
theorem borrowing_instance_preserves_source
    (w : EngineWorld) (st : LuaState) (d : Nat)
    (hvalid : (lookupKey w.states st.handle).isSome = true)
    (hd : lua_gettop w st = d) :
    lua_gettop w (st.createReusing true) = d ∧
    (st.createReusing true).owning = false ∧
    LuaState.destroy w (st.createReusing true) = w ∧
    lua_gettop (LuaState.destroy w (st.createReusing true)) st = d ∧
    (lookupKey (LuaState.destroy w (st.createReusing true)).states st.handle).isSome = true := by
  have hdes : LuaState.destroy w (st.createReusing true) = w := by
    simp [LuaState.destroy, LuaState.createReusing]
  refine ⟨hd, rfl, hdes, ?_, ?_⟩
  · rw [hdes]; exact hd
  · rw [hdes]; exact hvalid

/-- Witness for C7: an engine heap with one live state of depth 1, matching
the ReuseLuaSteteFromContext test after one push. -/
theorem borrowing_instance_preserves_source_witness :
    (lookupKey (EngineWorld.mk 1 [(0, [LuaValue.str "test"])]).states
      (LuaState.mk 0 true).handle).isSome = true ∧
    lua_gettop (EngineWorld.mk 1 [(0, [LuaValue.str "test"])]) (LuaState.mk 0 true) = 1 ∧
    LuaState.destroy (EngineWorld.mk 1 [(0, [LuaValue.str "test"])])
        ((LuaState.mk 0 true).createReusing true)
      = EngineWorld.mk 1 [(0, [LuaValue.str "test"])] :=
  ⟨by decide, by decide,
    (borrowing_instance_preserves_source (EngineWorld.mk 1 [(0, [LuaValue.str "test"])])
      (LuaState.mk 0 true) 1 (by decide) (by decide)).2.2.1⟩

/-- The averaging library of the RegisterCLibrary test: a descriptor named
`L` holding the native callable `foo` under the function name `f`. -/
def avgLib (L f : String) : LuaLibrary :=
  (LuaLibrary.mk L []).AddCFunction f foo

/-- C8: native library binding.  After AddLibrary of a descriptor named `L`
containing the native averaging callable under name `f`, compiling (under a
fresh logical name) and running a script that prints `pre .. L.f(args)`
resolves `L` as a script-visible global with `f` installed, succeeds, and
prints `pre` followed by the callable's first result: the average
`sum(args) / length(args)`. -/
theorem registered_library_call_average
    (ctx : LuaContext) (L f n pre : String) (args : List ℚ)
    (hfresh : lookupKey ctx.registry n = none) :
    lookupLib (ctx.AddLibrary (avgLib L f)).libraries L = some (avgLib L f) ∧
    lookupKey (avgLib L f).functions f = some foo ∧
    ((ctx.AddLibrary (avgLib L f)).CompileString n (Chunk.printConcatCall pre L f args) false).2
      = Except.ok () ∧
    ((ctx.AddLibrary (avgLib L f)).CompileString n (Chunk.printConcatCall pre L f args) false).1.Run n
      = Except.ok [Obs.line [LuaValue.str pre, LuaValue.num (args.sum / (args.length : ℚ))]] := by
  have hlib : lookupLib (ctx.libraries ++ [avgLib L f]) L = some (avgLib L f) :=
    lookupLib_append_singleton ctx.libraries (avgLib L f) L rfl
  have hfn : lookupKey (avgLib L f).functions f = some foo := by
    simp [avgLib, LuaLibrary.AddCFunction, upsert, lookupKey]
  have hsum : (List.map (lua_tonumber ∘ LuaValue.num) args).sum = args.sum := by
    induction args with
    | nil => rfl
    | cons q qs ih => simp [Function.comp, lua_tonumber, ih]
  have hfresh1 : lookupKey (ctx.AddLibrary (avgLib L f)).registry n = none := hfresh
  have h1 : (ctx.AddLibrary (avgLib L f)).CompileString n (Chunk.printConcatCall pre L f args) false
      = (LuaContext.mk (upsert ctx.registry n
          ⟨Chunk.printConcatCall pre L f args, ctx.libraries ++ [avgLib L f]⟩)
          (ctx.libraries ++ [avgLib L f]), Except.ok ()) := by
    rw [CompileString_fresh _ n _ false hfresh1,
      compileStore_ok _ n (Chunk.printConcatCall pre L f args) rfl]
    simp [LuaContext.AddLibrary]
  have hreg : lookupKey (upsert ctx.registry n
      ⟨Chunk.printConcatCall pre L f args, ctx.libraries ++ [avgLib L f]⟩) n
      = some ⟨Chunk.printConcatCall pre L f args, ctx.libraries ++ [avgLib L f]⟩ :=
    lookupKey_upsert_self _ _ _
  have hrun : runResult (ctx.libraries ++ [avgLib L f]) (Chunk.printConcatCall pre L f args)
      = Except.ok [Obs.line [LuaValue.str pre, LuaValue.num (args.sum / (args.length : ℚ))]] := by
    simp [runResult, lua_pcall, hlib, hfn, foo, List.map_map, List.length_map, hsum]
  refine ⟨hlib, hfn, ?_, ?_⟩
  · simp [h1]
  · simp only [h1]
    rw [Run_lookup _ n ⟨Chunk.printConcatCall pre L f args, ctx.libraries ++ [avgLib L f]⟩
      (by simpa using hreg)]
    exact hrun

/-- Witness for C8 at the RegisterCLibrary test input: library "foolib" with
function "foo", arguments 1,2,3,4; the first printed result is the average
2.5. -/
theorem registered_library_call_average_witness :
    lookupKey LuaContext.new.registry "test" = none ∧
    ((LuaContext.new.AddLibrary (avgLib "foolib" "foo")).CompileString "test"
        (Chunk.printConcatCall "Result of calling foolib.foo(1,2,3,4) = " "foolib" "foo"
          [1, 2, 3, 4]) false).1.Run "test"
      = Except.ok [Obs.line [LuaValue.str "Result of calling foolib.foo(1,2,3,4) = ",
          LuaValue.num 2.5]] := by
  refine ⟨rfl, ?_⟩
  have h := (registered_library_call_average LuaContext.new "foolib" "foo" "test"
    "Result of calling foolib.foo(1,2,3,4) = " [1, 2, 3, 4] rfl).2.2.2
  have e : (([1, 2, 3, 4] : List ℚ).sum / ((([1, 2, 3, 4] : List ℚ).length : ℕ) : ℚ)) = (2.5 : ℚ) := by
    norm_num
  rw [e] at h
  exact h

/-- The renamed library of the RegisterCLibraryWithChangedName test: a
descriptor constructed as "some_foolib", populated with `foo`, then renamed
to "foolib" before being handed to the Context. -/
def renamedLib : LuaLibrary :=
  ((LuaLibrary.mk "some_foolib" []).AddCFunction "foo" foo).setName "foolib"

/-- C9: renaming a library with setName before it is bound makes subsequently
compiled scripts resolve it under the new name "foolib" (the averaging call
prints 2.5), and not under the construction name "some_foolib" (a script
using the old name fails at run time with the engine's nil-global error). -/
theorem setName_binds_under_new_name :
    ((LuaContext.new.AddLibrary renamedLib).CompileString "test"
        (Chunk.printConcatCall "Result of calling foolib.foo(1,2,3,4) = " "foolib" "foo"
          [1, 2, 3, 4]) false).1.Run "test"
      = Except.ok [Obs.line [LuaValue.str "Result of calling foolib.foo(1,2,3,4) = ",
          LuaValue.num 2.5]] ∧
    ((LuaContext.new.AddLibrary renamedLib).CompileString "test2"
        (Chunk.printConcatCall "pre " "some_foolib" "foo" [1, 2, 3, 4]) false).1.Run "test2"
      = Except.error (LuaErr.scriptRuntimeError (luaNilIndexMsg "some_foolib")) := by
  constructor
  · simp [LuaContext.new, LuaContext.AddLibrary, LuaContext.CompileString, LuaContext.compileStore,
      luaL_loadstring, lookupKey, upsert, renamedLib, LuaLibrary.AddCFunction, LuaLibrary.setName,
      LuaContext.Run, runResult, lua_pcall, lookupLib, foo, lua_tonumber]
    norm_num
  · simp [LuaContext.new, LuaContext.AddLibrary, LuaContext.CompileString, LuaContext.compileStore,
      luaL_loadstring, lookupKey, upsert, renamedLib, LuaLibrary.AddCFunction, LuaLibrary.setName,
      LuaContext.Run, runResult, lua_pcall, lookupLib]

/-- C10: the native averaging callable `foo` is total and never raises a
script error: for every argument stack it pushes exactly the two results
`sum/n` and `sum` (where `sum` coerces every argument with `lua_tonumber`,
non-numbers contributing 0) and returns the result count 2; the division is
performed unguarded even for the empty argument stack. -/
theorem foo_total_two_results (args : List LuaValue) :
    foo args = ([LuaValue.num (((args.map lua_tonumber).sum) / (args.length : ℚ)),
                 LuaValue.num ((args.map lua_tonumber).sum)], 2) ∧
    (foo args).1.length = 2 ∧
    (foo args).2 = 2 ∧
    (∀ s, lua_tonumber (LuaValue.str s) = 0) ∧
    lua_tonumber LuaValue.nil = 0 ∧
    foo [] = ([LuaValue.num ((0 : ℚ) / ((0 : ℕ) : ℚ)), LuaValue.num 0], 2) :=
  ⟨rfl, rfl, rfl, fun _ => rfl, rfl, rfl⟩

end LuaCpp
